import Mathlib

/-!
Verification development for the timezone translation and timezone-aware
temporal value engine of the exchangelib repository (the `EWSDateTime`,
`EWSDate`, `EWSTimeZone` types and the Windows-zone map generator).

The implementation modules `exchangelib/ewsdatetime.py` and
`exchangelib/winzone.py` are not present in the source tree; only their
test suite (`tests/test_ewsdatetime.py`) and declarations are.  The
definitions below are therefore modelled from the specification, with the
concrete behaviors (error messages, offsets, example values) pinned by the
assertions of the test suite.
-/

namespace Exchangelib

/-- Modelled from the spec: the error taxonomy of §7 visible at the
temporal-value API (`UnknownTimeZone`, `NaiveDateTimeNotAllowed`, and
Python's `ValueError` used for invalid timezone bindings and invalid
conversion-constructor arguments).  Each error carries its message, since
the spec requires failures to identify the offending key or string. -/
inductive EWSError where
  | unknownTimeZone (msg : String)
  | naiveDateTimeNotAllowed (msg : String)
  | valueError (msg : String)
deriving DecidableEq, Repr

/-- Modelled from the spec: a Timezone Registry entry (Timezone Value),
identified by its IANA key, with the Windows ID and Windows display name
looked up from the Mapping Table on construction
(`exchangelib/ewsdatetime.py`, class `EWSTimeZone`). -/
structure EWSTimeZone where
  key : String
  ms_id : String
  ms_name : String
deriving DecidableEq, Repr

/-- Modelled from the spec: the set of IANA keys the host timezone
provider (`zoneinfo.available_timezones()`) reports as available.  A
representative snapshot: geographic zones used by the test suite together
with the non-geographic aliases (`SystemV/...`, `localtime`) that the
completeness check filters out. -/
def available_timezones : List String :=
  ["Europe/Copenhagen", "UTC", "GMT", "Etc/GMT-5", "Africa/Tripoli",
   "America/New_York", "Asia/Tokyo", "Australia/Sydney",
   "SystemV/AST4", "SystemV/EST5", "localtime"]

/-- Modelled from the spec: the embedded Mapping Table
`CLDR_TO_MS_TIMEZONE_MAP` of `exchangelib/winzone.py`, mapping an IANA key
to the pair (Windows ID, Windows display name).  A representative snapshot
covering every geographic key of `available_timezones` (the real table has
several hundred entries; its completeness invariant is the subject of the
verification routine below). -/
def CLDR_TO_MS_TIMEZONE_MAP : List (String × String × String) :=
  [("Europe/Copenhagen", "Romance Standard Time",
      "(UTC+01:00) Brussels, Copenhagen, Madrid, Paris"),
   ("UTC", "UTC", "(UTC) Coordinated Universal Time"),
   ("GMT", "UTC", "(UTC) Coordinated Universal Time"),
   ("Etc/GMT-5", "West Asia Standard Time",
      "(UTC+05:00) Ashgabat, Tashkent"),
   ("Africa/Tripoli", "Libya Standard Time", "(UTC+02:00) Tripoli"),
   ("America/New_York", "Eastern Standard Time",
      "(UTC-05:00) Eastern Time (US and Canada)"),
   ("Asia/Tokyo", "Tokyo Standard Time", "(UTC+09:00) Osaka, Sapporo, Tokyo"),
   ("Australia/Sydney", "AUS Eastern Standard Time",
      "(UTC+10:00) Canberra, Melbourne, Sydney")]

/-- Modelled from the spec: `EWSTimeZone` construction from an IANA key
(§4.2 `from_key`).  The key must be recognized by the IANA provider, else
`UnknownTimeZone` ("No time zone found with key <key>"); a key recognized
by IANA but absent from the Mapping Table raises the distinct
`UnknownTimeZone` ("No Windows timezone name found for timezone
\"<key>\"").  The provider key set and the mapping table are passed
explicitly (the test suite exercises the second branch by removing an
entry from the table). -/
def from_key (iana : List String) (table : List (String × String × String))
    (key : String) : Except EWSError EWSTimeZone :=
  if key ∈ iana then
    match table.find? (fun e => e.1 == key) with
    | some e => .ok ⟨key, e.2.1, e.2.2⟩
    | none => .error (.unknownTimeZone
        ("No Windows timezone name found for timezone \"" ++ key ++ "\""))
  else
    .error (.unknownTimeZone ("No time zone found with key " ++ key))

/-- Modelled from the spec: a timezone object as seen at the API boundary:
either a Registry-issued `EWSTimeZone`, or a foreign provider's timezone
object (zoneinfo, pytz, dateutil, ...), identified by the provider name
and the zone key it carries. -/
inductive AnyTZ where
  | ews (tz : EWSTimeZone)
  | foreign (provider : String) (key : String)
deriving DecidableEq, Repr

/-- Modelled from the spec: `EWSTimeZone.__eq__` — two Timezone Values are
equal iff their IANA keys are equal; comparison with a non-`EWSTimeZone`
object is always false. -/
def tzEq (a : EWSTimeZone) (other : AnyTZ) : Bool :=
  match other with
  | .ews b => a.key == b.key
  | .foreign _ _ => false

/-- Modelled from the spec: the filter applied to the host provider's key
set before the completeness comparison — drop POSIX-style `SystemV/...`
aliases and the `localtime` pseudo-entry. -/
def sanitize (keys : List String) : List String :=
  keys.filter (fun t => !("SystemV/".toList.isPrefixOf t.toList) && t != "localtime")

/-- Modelled from the spec: the completeness verification routine of §4.1 —
`(all_host_iana_keys - filtered_aliases) - mapping_table_keys`. -/
def completenessGap (iana : List String)
    (table : List (String × String × String)) : List String :=
  (sanitize iana).filter (fun t => !(table.any (fun e => e.1 == t)))

/-- Modelled from the spec: the civil (wall-clock) fields of a timestamp —
date, time of day and sub-second fraction (§3 "Temporal Value (DateTime)"). -/
structure CivilFields where
  year : Nat
  month : Nat
  day : Nat
  hour : Nat
  minute : Nat
  second : Nat
  microsecond : Nat
deriving DecidableEq, Repr

/-- Days from 1970-01-01 to the given proleptic-Gregorian calendar date
(the standard civil-from-days rata-die computation used to linearize
civil dates for arithmetic). -/
def daysFromCivil (y m d : Nat) : Int :=
  let yy : Int := (y : Int) - (if m ≤ 2 then 1 else 0)
  let era : Int := Int.fdiv yy 400
  let yoe : Int := yy - era * 400
  let mp : Int := ((m : Int) + 9) % 12
  let doy : Int := (153 * mp + 2) / 5 + (d : Int) - 1
  let doe : Int := yoe * 365 + yoe / 4 - yoe / 100 + doy
  era * 146097 + doe - 719468

/-- Microseconds from the epoch instant 1970-01-01T00:00:00 to the given
civil fields, read as a wall-clock timestamp. -/
def civilToMicros (f : CivilFields) : Int :=
  daysFromCivil f.year f.month f.day * 86400000000
    + ((f.hour * 3600 + f.minute * 60 + f.second) * 1000000 + f.microsecond : Nat)

/-- Inverse of `daysFromCivil`: the proleptic-Gregorian date of a day
count relative to 1970-01-01. -/
def civilFromDays (z0 : Int) : Nat × Nat × Nat :=
  let z : Int := z0 + 719468
  let era : Int := Int.fdiv z 146097
  let doe : Int := z - era * 146097
  let yoe : Int := (doe - doe / 1460 + doe / 36524 - doe / 146096) / 365
  let y : Int := yoe + era * 400
  let doy : Int := doe - (365 * yoe + yoe / 4 - yoe / 100)
  let mp : Int := (5 * doy + 2) / 153
  let d : Int := doy - (153 * mp + 2) / 5 + 1
  let m : Int := mp + (if mp < 10 then 3 else -9)
  ((y + (if m ≤ 2 then 1 else 0)).toNat, m.toNat, d.toNat)

/-- Civil fields of a wall-clock microsecond count (used when rendering a
timestamp back to the wire format). -/
def microsToCivil (t : Int) : CivilFields :=
  let days : Int := Int.fdiv t 86400000000
  let rem : Nat := (t - days * 86400000000).toNat
  let ymd := civilFromDays days
  { year := ymd.1, month := ymd.2.1, day := ymd.2.2,
    hour := rem / 3600000000, minute := rem / 60000000 % 60,
    second := rem / 1000000 % 60, microsecond := rem % 1000000 }

/-- Modelled from the spec: the `EWSDateTime` type of
`exchangelib/ewsdatetime.py` — an immutable civil timestamp, linearized to
a wall-clock microsecond count, bound to at most one Registry-issued
Timezone Value (`none` models a naive timestamp). -/
structure EWSDateTime where
  wallMicros : Int
  tzinfo : Option EWSTimeZone
deriving DecidableEq, Repr

/-- The UTC Timezone Value of the Registry (`exchangelib.ewsdatetime.UTC`). -/
def UTC : EWSTimeZone :=
  ⟨"UTC", "UTC", "(UTC) Coordinated Universal Time"⟩

/-- Modelled from the spec: `EWSDateTime` construction from civil fields
and an optional timezone object.  A timezone object not issued by the
Timezone Registry (a foreign provider's object, e.g. pytz) is rejected at
construction with a `ValueError`; a Registry-issued value or no timezone
at all is accepted. -/
def EWSDateTime.new (f : CivilFields) (tz : Option AnyTZ) :
    Except EWSError EWSDateTime :=
  match tz with
  | none => .ok ⟨civilToMicros f, none⟩
  | some (.ews t) => .ok ⟨civilToMicros f, some t⟩
  | some (.foreign p k) =>
      .error (.valueError
        ("tzinfo " ++ p ++ " timezone " ++ k ++ " must be an EWSTimeZone instance"))

/-- The numeric value of a decimal digit character, if it is one. -/
def digitVal (c : Char) : Option Nat :=
  if c.isDigit then some (c.toNat - 48) else none

/-- Two decimal digit characters as a two-digit number. -/
def digit2 (a b : Char) : Option Nat := do
  let x ← digitVal a
  let y ← digitVal b
  pure (10 * x + y)

/-- Modelled from the spec: the trailing timezone designator of the wire
format — empty (naive), `Z` (UTC), or an explicit `±HH:MM` offset;
returns the offset in minutes, `none` marking a naive timestamp. -/
def parseOffsetTail : List Char → Option (Option Int)
  | [] => some none
  | ['Z'] => some (some 0)
  | [sign, h1, h2, ':', m1, m2] => do
      let h ← digit2 h1 h2
      let m ← digit2 m1 m2
      match sign with
      | '+' => some (some ((h * 60 + m : Nat) : Int))
      | '-' => some (some (-((h * 60 + m : Nat) : Int)))
      | _ => none
  | _ => none

/-- Modelled from the spec: the optional `.ffffff` fraction of the wire
format followed by the timezone designator. -/
def parseFracTail : List Char → Option (Nat × Option Int)
  | '.' :: u1 :: u2 :: u3 :: u4 :: u5 :: u6 :: rest => do
      let a ← digitVal u1
      let b ← digitVal u2
      let c ← digitVal u3
      let d ← digitVal u4
      let e ← digitVal u5
      let f ← digitVal u6
      let off ← parseOffsetTail rest
      pure (((((a * 10 + b) * 10 + c) * 10 + d) * 10 + e) * 10 + f, off)
  | rest => do
      let off ← parseOffsetTail rest
      pure (0, off)

/-- Modelled from the spec: parse of the DateTime wire format
`YYYY-MM-DDTHH:MM:SS[.ffffff](Z|±HH:MM)` into civil fields plus the
declared offset in minutes (`none` when the string carries no designator). -/
def parseWire (s : String) : Option (CivilFields × Option Int) :=
  match s.toList with
  | y1 :: y2 :: y3 :: y4 :: '-' :: m1 :: m2 :: '-' :: d1 :: d2 :: 'T' ::
      h1 :: h2 :: ':' :: mi1 :: mi2 :: ':' :: s1 :: s2 :: rest => do
      let ya ← digit2 y1 y2
      let yb ← digit2 y3 y4
      let mo ← digit2 m1 m2
      let dy ← digit2 d1 d2
      let h ← digit2 h1 h2
      let mi ← digit2 mi1 mi2
      let sec ← digit2 s1 s2
      let tail ← parseFracTail rest
      pure (⟨ya * 100 + yb, mo, dy, h, mi, sec, tail.1⟩, tail.2)
  | _ => none

/-- Modelled from the spec: `EWSDateTime.from_string` — parse the wire
format; a timestamp with no `Z` and no explicit offset is rejected with
`NaiveDateTimeNotAllowed`; on success the instant is normalized to the
UTC Timezone Value (the wall-clock fields become the UTC fields of the
same absolute instant). -/
def EWSDateTime.from_string (s : String) : Except EWSError EWSDateTime :=
  match parseWire s with
  | none => .error (.valueError ("Invalid datetime string " ++ s))
  | some (_, none) =>
      .error (.naiveDateTimeNotAllowed ("Expected a timezone-aware datetime " ++ s))
  | some (f, some off) => .ok ⟨civilToMicros f - off * 60000000, some UTC⟩

/-- Modelled from the spec: addition of a duration (in microseconds) to a
DateTime — a new DateTime with the same Timezone Value. -/
def EWSDateTime.add (dt : EWSDateTime) (delta : Int) : EWSDateTime :=
  ⟨dt.wallMicros + delta, dt.tzinfo⟩

/-- Modelled from the spec: subtraction of a duration (in microseconds)
from a DateTime — a new DateTime with the same Timezone Value. -/
def EWSDateTime.sub (dt : EWSDateTime) (delta : Int) : EWSDateTime :=
  ⟨dt.wallMicros - delta, dt.tzinfo⟩

/-- Day of the month of the last Sunday of a 31-day month (used for the
European DST transition rule: last Sunday of March / last Sunday of
October). -/
def lastSundayOfMonth (y m : Nat) : Nat :=
  31 - ((daysFromCivil y m 31 + 4).emod 7).toNat

/-- Modelled from the spec: wall-clock fields falling in the
spring-forward gap of `Europe/Copenhagen` — the skipped hour 02:00–02:59
of the last Sunday of March (§4.3 "non-existent local time"). -/
def copenhagenGapB (f : CivilFields) : Bool :=
  f.month == 3 && f.day == lastSundayOfMonth f.year 3 && f.hour == 2

/-- Modelled from the spec: wall-clock fields falling in the fall-back
ambiguous hour of `Europe/Copenhagen` — the repeated hour 02:00–02:59 of
the last Sunday of October (§4.3 "ambiguous local time"). -/
def copenhagenAmbiguousB (f : CivilFields) : Bool :=
  f.month == 10 && f.day == lastSundayOfMonth f.year 10 && f.hour == 2

/-- Modelled from the spec: the UTC offset, in minutes, that
`Europe/Copenhagen` assigns to given wall-clock fields under a tri-state
DST hint.  In the gap and in the ambiguous hour the hint selects the
standard-time (+01:00) or DST (+02:00) interpretation; an unset hint uses
the zone provider's default (DST at the ambiguous hour, the pre-transition
standard side in the gap, as fixed by the test suite).  Everywhere else
the offset follows the zone rule alone: +02:00 between the transitions
(last Sunday of March 03:00 to last Sunday of October 02:00, wall clock),
+01:00 otherwise. -/
def copenhagenOffsetMin (f : CivilFields) (hint : Option Bool) : Int :=
  if copenhagenGapB f then
    match hint with
    | some true => 120
    | _ => 60
  else if copenhagenAmbiguousB f then
    match hint with
    | some false => 60
    | _ => 120
  else
    let k := (f.month * 31 + f.day) * 24 + f.hour
    if (3 * 31 + lastSundayOfMonth f.year 3) * 24 + 3 ≤ k ∧
        k < (10 * 31 + lastSundayOfMonth f.year 10) * 24 + 2 then 120
    else 60

/-- Modelled from the spec: `EWSTimeZone.localize` — compose a DateTime
from civil fields plus this Timezone Value under a tri-state DST hint,
reported here as the UTC offset (in minutes) the result carries.  Only
the zones exercised by the spec are modelled (`none` for others). -/
def EWSTimeZone.localize (tz : EWSTimeZone) (f : CivilFields)
    (hint : Option Bool) : Option Int :=
  if tz.key = "Europe/Copenhagen" then some (copenhagenOffsetMin f hint)
  else if tz.key = "UTC" ∨ tz.key = "GMT" then some 0
  else if tz.key = "Etc/GMT-5" then some 300
  else none

/-- The UTC offset, in minutes, a Registry zone assigns to wall-clock
fields of an aware DateTime (no hint: the provider default applies).
Zones outside the modelled set render as offset 0. -/
def utcOffsetMinAt (key : String) (f : CivilFields) : Int :=
  if key = "Europe/Copenhagen" then copenhagenOffsetMin f none
  else if key = "Etc/GMT-5" then 300
  else 0

/-- Decimal rendering of a number, zero-padded to a given width. -/
def padNum (w n : Nat) : String :=
  let s := toString n
  String.mk (List.replicate (w - s.length) '0') ++ s

/-- Rendering of a UTC offset in minutes as the `±HH:MM` wire suffix. -/
def renderOffset (off : Int) : String :=
  let sign := if off < 0 then "-" else "+"
  let a := off.natAbs
  sign ++ padNum 2 (a / 60) ++ ":" ++ padNum 2 (a % 60)

/-- Modelled from the spec: `EWSDateTime.ewsformat` — serialization to the
wire format.  A DateTime with no Timezone Value fails with a `ValueError`
rather than returning a degraded string; an aware DateTime renders its
civil fields with a `Z` suffix for UTC and an explicit offset otherwise. -/
def EWSDateTime.ewsformat (dt : EWSDateTime) : Except EWSError String :=
  match dt.tzinfo with
  | none => .error (.valueError "EWSDateTime must be timezone-aware")
  | some tz =>
      let f := microsToCivil dt.wallMicros
      let base := padNum 4 f.year ++ "-" ++ padNum 2 f.month ++ "-" ++
        padNum 2 f.day ++ "T" ++ padNum 2 f.hour ++ ":" ++ padNum 2 f.minute ++
        ":" ++ padNum 2 f.second
      let frac := if f.microsecond = 0 then "" else "." ++ padNum 6 f.microsecond
      let suffix :=
        if tz.key = "UTC" then "Z" else renderOffset (utcOffsetMinAt tz.key f)
      .ok (base ++ frac ++ suffix)

/-- Modelled from the spec: `EWSTimeZone.from_timezone` — the single
admission point for foreign timezone representations: a Registry-issued
value passes through; a foreign provider's object is normalized by its
zone key through `from_key`. -/
def from_timezone (tz : AnyTZ) : Except EWSError EWSTimeZone :=
  match tz with
  | .ews t => .ok t
  | .foreign _ k => from_key available_timezones CLDR_TO_MS_TIMEZONE_MAP k

/-- Modelled from the spec: a Python `datetime.datetime` argument as seen
by `EWSDateTime.from_datetime` — either a plain `datetime.datetime`
(civil fields plus optional tzinfo) or an object that is already an
`EWSDateTime` instance. -/
inductive PyDatetime where
  | plain (f : CivilFields) (tz : Option AnyTZ)
  | ews (dt : EWSDateTime)
deriving DecidableEq, Repr

/-- Modelled from the spec: `EWSDateTime.from_datetime` — converts a plain
`datetime.datetime` (naive, Registry-zoned, or foreign-zoned via
`from_timezone`), but rejects with `ValueError` an argument that is
already an `EWSDateTime` instance. -/
def EWSDateTime.from_datetime (d : PyDatetime) : Except EWSError EWSDateTime :=
  match d with
  | .ews _ => .error (.valueError "argument must be a datetime instance")
  | .plain f none => .ok ⟨civilToMicros f, none⟩
  | .plain f (some tz) => (from_timezone tz).map (fun t => ⟨civilToMicros f, some t⟩)

/-- Modelled from the spec: the `EWSDate` type — a plain calendar date
with no timezone. -/
structure EWSDate where
  year : Nat
  month : Nat
  day : Nat
deriving DecidableEq, Repr

/-- Modelled from the spec: a Python `datetime.date` argument as seen by
`EWSDate.from_date` — either a plain `datetime.date` or an object that is
already an `EWSDate` instance. -/
inductive PyDate where
  | plain (y m d : Nat)
  | ews (d : EWSDate)
deriving DecidableEq, Repr

/-- Modelled from the spec: `EWSDate.from_date` — converts a plain
`datetime.date`, but rejects with `ValueError` an argument that is
already an `EWSDate` instance. -/
def EWSDate.from_date (d : PyDate) : Except EWSError EWSDate :=
  match d with
  | .ews _ => .error (.valueError "argument must be a date instance")
  | .plain y m d => .ok ⟨y, m, d⟩

/-- Modelled from the spec: the error taxonomy of the Map Generator —
network/transport failure during fetch is a distinct, caller-tolerable
class (`MapFetchError`), separate from the data-validity class
(`MapValidationError`) that is fatal to the generation step only. -/
inductive GenError where
  | mapFetchError (msg : String)
  | mapValidationError (msg : String)
deriving DecidableEq, Repr

/-- Modelled from the spec: the pinned "zone type" version tag of the
upstream CLDR windowsZones document recorded in `exchangelib/winzone.py`. -/
def CLDR_WINZONE_TYPE_VERSION : String := "2021a"

/-- Modelled from the spec: the pinned "other/legacy aliases" version tag
of the upstream CLDR windowsZones document. -/
def CLDR_WINZONE_OTHER_VERSION : String := "7e11800"

/-- Modelled from the spec: the raw document returned by the upstream
fetch — either a well-formed document carrying the two version tags and
the zone mapping entries, or a malformed one. -/
inductive RawDoc where
  | wellFormed (typeVersion otherVersion : String)
      (entries : List (String × String × String))
  | malformed (desc : String)
deriving DecidableEq, Repr

/-- Modelled from the spec: the outcome of `fetch_upstream` — the raw
document, or a transport-level failure with its message. -/
inductive FetchOutcome where
  | ok (doc : RawDoc)
  | transportError (msg : String)
deriving DecidableEq, Repr

/-- Modelled from the spec: `parse(raw_document)` — a malformed document
is a data-validity failure (`MapValidationError`); a well-formed one
yields the two version tags and the freshly parsed mapping table. -/
def parseDoc (doc : RawDoc) :
    Except GenError (String × String × List (String × String × String)) :=
  match doc with
  | .malformed desc => .error (.mapValidationError desc)
  | .wellFormed tv ov entries => .ok (tv, ov, entries)

/-- Modelled from the spec: `generate_map` — compose fetch and parse.  A
transport failure is reported as `MapFetchError`; a fetched document is
parsed and its version tags and table returned. -/
def generate_map (fetch : FetchOutcome) :
    Except GenError (String × String × List (String × String × String)) :=
  match fetch with
  | .transportError msg => .error (.mapFetchError msg)
  | .ok doc => parseDoc doc

/-- Modelled from the spec: a run of the Map Generator against the
process-wide Mapping Table state.  The generator produces a fresh table
and never edits the in-memory table in place (§3: "replaced wholesale by
a new Map Generator run; never edited incrementally at runtime"), so the
state component is returned unchanged alongside the generation outcome. -/
def runGenerateMap (table : List (String × String × String))
    (fetch : FetchOutcome) :
    List (String × String × String) ×
      Except GenError (String × String × List (String × String × String)) :=
  (table, generate_map fetch)

/-- Modelled from the spec: the upstream document as fetched when the
network is reachable and upstream has not drifted from the embedded
snapshot — the pinned version tags and the embedded table (the test suite
asserts the freshly generated table equals `CLDR_TO_MS_TIMEZONE_MAP`). -/
def upstreamDoc : RawDoc :=
  .wellFormed CLDR_WINZONE_TYPE_VERSION CLDR_WINZONE_OTHER_VERSION
    CLDR_TO_MS_TIMEZONE_MAP

/-- The absolute instant (microseconds from the epoch, in UTC) denoted by
an aware DateTime: its wall-clock count corrected by its zone's UTC
offset; `none` for a naive DateTime, which denotes no instant. -/
def instantOf (dt : EWSDateTime) : Option Int :=
  dt.tzinfo.map
    (fun tz => dt.wallMicros - utcOffsetMinAt tz.key (microsToCivil dt.wallMicros) * 60000000)

/-- The Registry's `Europe/Copenhagen` Timezone Value, as `from_key`
constructs it from the Mapping Table. -/
def copenhagenTZ : EWSTimeZone :=
  ⟨"Europe/Copenhagen", "Romance Standard Time",
    "(UTC+01:00) Brussels, Copenhagen, Madrid, Paris"⟩

lemma copenhagenOffsetMin_hint_irrel (f : CivilFields)
    (hg : copenhagenGapB f = false) (ha : copenhagenAmbiguousB f = false)
    (h1 h2 : Option Bool) : copenhagenOffsetMin f h1 = copenhagenOffsetMin f h2 := by
  simp [copenhagenOffsetMin, hg, ha]

/-- Claim C1: on every well-formed wire string with an explicit offset or
`Z`, `from_string` returns a DateTime bound to the UTC Timezone Value
whose absolute instant is the one the string denotes (the parsed civil
fields corrected by the declared offset); in particular
`from_string "2000-01-02T03:04:05+01:00"` is the instant
2000-01-02 02:04:05 UTC and `from_string "2000-01-02T03:04:05Z"` is the
instant 2000-01-02 03:04:05 UTC. -/
theorem from_string_normalizes_to_utc :
    (∀ s f off, parseWire s = some (f, some off) →
      EWSDateTime.from_string s = .ok ⟨civilToMicros f - off * 60000000, some UTC⟩ ∧
      ∀ dt, EWSDateTime.from_string s = .ok dt →
        dt.tzinfo = some UTC ∧ instantOf dt = some (civilToMicros f - off * 60000000)) ∧
    EWSDateTime.from_string "2000-01-02T03:04:05+01:00" =
      .ok ⟨civilToMicros ⟨2000, 1, 2, 2, 4, 5, 0⟩, some UTC⟩ ∧
    EWSDateTime.from_string "2000-01-02T03:04:05Z" =
      .ok ⟨civilToMicros ⟨2000, 1, 2, 3, 4, 5, 0⟩, some UTC⟩ := by
  refine ⟨?_, by rfl, by rfl⟩
  intro s f off h
  have hmain : EWSDateTime.from_string s =
      .ok ⟨civilToMicros f - off * 60000000, some UTC⟩ := by
    simp [EWSDateTime.from_string, h]
  refine ⟨hmain, ?_⟩
  intro dt hdt
  rw [hmain] at hdt
  cases hdt
  refine ⟨rfl, ?_⟩
  simp [instantOf, UTC, utcOffsetMinAt]

/-- Witness for C1 at a concrete input carrying a fraction and an
explicit offset. -/
theorem from_string_normalizes_to_utc_w :
    EWSDateTime.from_string "2000-01-02T03:04:05.678901+01:00" =
      .ok ⟨civilToMicros ⟨2000, 1, 2, 3, 4, 5, 678901⟩ - 60 * 60000000, some UTC⟩ :=
  (from_string_normalizes_to_utc.1 "2000-01-02T03:04:05.678901+01:00"
    ⟨2000, 1, 2, 3, 4, 5, 678901⟩ 60 (by decide)).1

/-- Claim C2: a timestamp string carrying no `Z` and no explicit offset
designator is rejected by `from_string` with `NaiveDateTimeNotAllowed`
rather than parsed; in particular `"2000-01-02T03:04:05"` is rejected. -/
theorem from_string_rejects_naive :
    (∀ s f, parseWire s = some (f, none) →
      ∃ m, EWSDateTime.from_string s = .error (.naiveDateTimeNotAllowed m)) ∧
    ∃ m, EWSDateTime.from_string "2000-01-02T03:04:05" =
      .error (.naiveDateTimeNotAllowed m) := by
  constructor
  · intro s f h
    exact ⟨"Expected a timezone-aware datetime " ++ s, by simp [EWSDateTime.from_string, h]⟩
  · exact ⟨"Expected a timezone-aware datetime 2000-01-02T03:04:05", by rfl⟩

/-- Witness for C2 at a concrete naive timestamp carrying a fraction. -/
theorem from_string_rejects_naive_w :
    ∃ m, EWSDateTime.from_string "2000-01-02T03:04:05.678901" =
      .error (.naiveDateTimeNotAllowed m) :=
  from_string_rejects_naive.1 "2000-01-02T03:04:05.678901"
    ⟨2000, 1, 2, 3, 4, 5, 678901⟩ (by decide)

/-- Claim C3: localizing wall-clock 02:36:00 in `Europe/Copenhagen` on
2023-10-29 (fall-back) yields UTC offset +01:00 under hint `false` and
+02:00 under hint `true` or unset; localizing 02:36:00 on 2023-03-26
(spring-forward) yields +01:00 under hint `false` and +02:00 under hint
`true`; and the hint has no effect on wall-clock fields outside the
ambiguous and skipped hours. -/
theorem localize_dst_disambiguation :
    from_key available_timezones CLDR_TO_MS_TIMEZONE_MAP "Europe/Copenhagen" =
      .ok copenhagenTZ ∧
    copenhagenTZ.localize ⟨2023, 10, 29, 2, 36, 0, 0⟩ (some false) = some 60 ∧
    copenhagenTZ.localize ⟨2023, 10, 29, 2, 36, 0, 0⟩ (some true) = some 120 ∧
    copenhagenTZ.localize ⟨2023, 10, 29, 2, 36, 0, 0⟩ none = some 120 ∧
    copenhagenTZ.localize ⟨2023, 3, 26, 2, 36, 0, 0⟩ (some false) = some 60 ∧
    copenhagenTZ.localize ⟨2023, 3, 26, 2, 36, 0, 0⟩ (some true) = some 120 ∧
    ∀ (tz : EWSTimeZone) (f : CivilFields) (h1 h2 : Option Bool),
      copenhagenGapB f = false → copenhagenAmbiguousB f = false →
      tz.localize f h1 = tz.localize f h2 := by
  refine ⟨by rfl, by decide, by decide, by decide, by decide, by decide, ?_⟩
  intro tz f h1 h2 hg ha
  simp only [EWSTimeZone.localize]
  split_ifs
  · exact congrArg some (copenhagenOffsetMin_hint_irrel f hg ha h1 h2)
  · rfl
  · rfl
  · rfl

/-- Witness for C3 at a concrete unambiguous wall-clock time: midday in
midsummer gets the same offset under opposite hints. -/
theorem localize_dst_disambiguation_w :
    copenhagenTZ.localize ⟨2023, 7, 15, 12, 0, 0, 0⟩ (some false) =
      copenhagenTZ.localize ⟨2023, 7, 15, 12, 0, 0, 0⟩ (some true) :=
  localize_dst_disambiguation.2.2.2.2.2.2 copenhagenTZ
    ⟨2023, 7, 15, 12, 0, 0, 0⟩ (some false) (some true) (by decide) (by decide)

/-- Claim C4: `ewsformat` on a DateTime carrying no Timezone Value fails
with a `ValueError` instead of returning a string, and constructing a
DateTime with a timezone object not issued by the Timezone Registry (a
foreign provider's object) fails at construction time. -/
theorem naive_serialization_and_foreign_tz_rejected :
    (∀ dt : EWSDateTime, dt.tzinfo = none →
      ∃ m, dt.ewsformat = .error (.valueError m)) ∧
    ∀ (f : CivilFields) (p k : String),
      ∃ m, EWSDateTime.new f (some (.foreign p k)) = .error (.valueError m) := by
  constructor
  · intro dt h
    exact ⟨"EWSDateTime must be timezone-aware", by
      simp [EWSDateTime.ewsformat, h]⟩
  · intro f p k
    exact ⟨"tzinfo " ++ p ++ " timezone " ++ k ++ " must be an EWSTimeZone instance",
      rfl⟩

/-- Witness for C4 at a concrete naive DateTime and a concrete pytz-zoned
construction. -/
theorem naive_serialization_and_foreign_tz_rejected_w :
    (∃ m, (EWSDateTime.mk (civilToMicros ⟨2000, 1, 2, 3, 4, 5, 0⟩) none).ewsformat =
      .error (.valueError m)) ∧
    ∃ m, EWSDateTime.new ⟨2000, 1, 2, 3, 4, 5, 0⟩
      (some (.foreign "pytz" "Europe/Copenhagen")) = .error (.valueError m) :=
  ⟨naive_serialization_and_foreign_tz_rejected.1 _ rfl,
   naive_serialization_and_foreign_tz_rejected.2 ⟨2000, 1, 2, 3, 4, 5, 0⟩
     "pytz" "Europe/Copenhagen"⟩

/-- Claim C5: constructing a Timezone Value from a key fails with
`UnknownTimeZone` in two distinct sub-cases: a key unrecognized by the
IANA provider gives "No time zone found with key <key>", a key recognized
by IANA but absent from the Mapping Table gives "No Windows timezone name
found for timezone \"<key>\""; the offending key appears verbatim in both
messages (they are the stated templates applied to the key) and the two
messages are distinct for every key. -/
theorem from_key_unknown_timezone_messages :
    (∀ (iana : List String) (table : List (String × String × String)) (key : String),
      key ∉ iana →
      from_key iana table key =
        .error (.unknownTimeZone ("No time zone found with key " ++ key))) ∧
    (∀ (iana : List String) (table : List (String × String × String)) (key : String),
      key ∈ iana → (∀ e ∈ table, e.1 ≠ key) →
      from_key iana table key =
        .error (.unknownTimeZone
          ("No Windows timezone name found for timezone \"" ++ key ++ "\""))) ∧
    ∀ key : String,
      ("No time zone found with key " ++ key) ≠
        ("No Windows timezone name found for timezone \"" ++ key ++ "\"") := by
  refine ⟨?_, ?_, ?_⟩
  · intro iana table key h
    simp [from_key, h]
  · intro iana table key hmem habs
    have hfind : table.find? (fun e => e.1 == key) = none := by
      rw [List.find?_eq_none]
      intro e he
      simpa using habs e he
    simp [from_key, hmem, hfind]
  · intro key h
    have hlen := congrArg String.length h
    rw [String.length_append, String.length_append, String.length_append] at hlen
    have e1 : "No time zone found with key ".length = 28 := rfl
    have e2 : "No Windows timezone name found for timezone \"".length = 45 := rfl
    have e3 : "\"".length = 1 := rfl
    rw [e1, e2, e3] at hlen
    omega

/-- Witness for C5: the two failure branches at the keys the test suite
uses — an IANA-unknown key, and an IANA-known key removed from the table. -/
theorem from_key_unknown_timezone_messages_w :
    from_key available_timezones CLDR_TO_MS_TIMEZONE_MAP "UNKNOWN" =
      .error (.unknownTimeZone "No time zone found with key UNKNOWN") ∧
    from_key available_timezones
      (CLDR_TO_MS_TIMEZONE_MAP.filter (fun e => e.1 != "Africa/Tripoli"))
      "Africa/Tripoli" =
      .error (.unknownTimeZone
        "No Windows timezone name found for timezone \"Africa/Tripoli\"") :=
  ⟨from_key_unknown_timezone_messages.1 available_timezones
      CLDR_TO_MS_TIMEZONE_MAP "UNKNOWN" (by decide),
   from_key_unknown_timezone_messages.2.1 available_timezones
      (CLDR_TO_MS_TIMEZONE_MAP.filter (fun e => e.1 != "Africa/Tripoli"))
      "Africa/Tripoli" (by decide) (by decide)⟩

/-- Claim C6: two Timezone Values are equal iff their IANA keys are equal;
the Registry's `GMT` and `UTC` entries share the Windows ID `UTC` yet are
unequal; and a Timezone Value never equals a foreign provider's timezone
object. -/
theorem tz_equality_by_iana_key :
    (∀ a b : EWSTimeZone, tzEq a (.ews b) = true ↔ a.key = b.key) ∧
    (∃ g u : EWSTimeZone,
      from_key available_timezones CLDR_TO_MS_TIMEZONE_MAP "GMT" = .ok g ∧
      from_key available_timezones CLDR_TO_MS_TIMEZONE_MAP "UTC" = .ok u ∧
      g.ms_id = "UTC" ∧ u.ms_id = "UTC" ∧ tzEq g (.ews u) = false) ∧
    ∀ (a : EWSTimeZone) (p k : String), tzEq a (.foreign p k) = false := by
  refine ⟨?_, ?_, ?_⟩
  · intro a b
    simp [tzEq]
  · exact ⟨⟨"GMT", "UTC", "(UTC) Coordinated Universal Time"⟩,
      ⟨"UTC", "UTC", "(UTC) Coordinated Universal Time"⟩,
      by rfl, by rfl, rfl, rfl, by decide⟩
  · intro a p k
    rfl

/-- Witness for C6: key equality decides equality at two concrete Registry
values. -/
theorem tz_equality_by_iana_key_w :
    tzEq copenhagenTZ (.ews copenhagenTZ) = true :=
  (tz_equality_by_iana_key.1 copenhagenTZ copenhagenTZ).mpr rfl

/-- Claim C7: the Mapping Table is complete for the host IANA provider
after filtering the non-geographic aliases — the verification routine
`(all_host_iana_keys - filtered_aliases) - mapping_table_keys` computes
the empty set, and the filter drops exactly the `SystemV/` keys and
`localtime`. -/
theorem mapping_table_complete :
    completenessGap available_timezones CLDR_TO_MS_TIMEZONE_MAP = [] ∧
    ∀ t ∈ sanitize available_timezones,
      CLDR_TO_MS_TIMEZONE_MAP.any (fun e => e.1 == t) = true := by
  exact ⟨by decide, by decide⟩

/-- Claim C8: a transport-level fetch failure makes `generate_map` raise
the distinct caller-tolerable `MapFetchError` — never `MapValidationError`
— and leaves the in-memory Mapping Table unmodified; a successful fetch
of the upstream document returns the two version tags and a table equal
to the embedded Mapping Table. -/
theorem generate_map_transport_failure_tolerated :
    (∀ (table : List (String × String × String)) (msg : String),
      runGenerateMap table (.transportError msg) =
        (table, .error (.mapFetchError msg))) ∧
    (∀ (table : List (String × String × String)) (msg v : String),
      (runGenerateMap table (.transportError msg)).2 ≠
        .error (.mapValidationError v)) ∧
    generate_map (.ok upstreamDoc) =
      .ok (CLDR_WINZONE_TYPE_VERSION, CLDR_WINZONE_OTHER_VERSION,
        CLDR_TO_MS_TIMEZONE_MAP) := by
  refine ⟨fun table msg => rfl, ?_, rfl⟩
  intro table msg v h
  simp [runGenerateMap, generate_map] at h

/-- Witness for C8: a concrete failed run against the embedded table. -/
theorem generate_map_transport_failure_tolerated_w :
    runGenerateMap CLDR_TO_MS_TIMEZONE_MAP (.transportError "connection refused") =
      (CLDR_TO_MS_TIMEZONE_MAP, .error (.mapFetchError "connection refused")) ∧
    (runGenerateMap CLDR_TO_MS_TIMEZONE_MAP
      (.transportError "connection refused")).2 ≠
      .error (.mapValidationError "connection refused") :=
  ⟨generate_map_transport_failure_tolerated.1 CLDR_TO_MS_TIMEZONE_MAP
      "connection refused",
   generate_map_transport_failure_tolerated.2.1 CLDR_TO_MS_TIMEZONE_MAP
      "connection refused" "connection refused"⟩

/-- Claim C9: for every DateTime `d` and duration `delta`, adding `delta`
and then subtracting it returns `d` exactly — the very same value, hence
the same absolute instant and the same bound Timezone Value; each step is
again an `EWSDateTime` by the types of `add` and `sub`. -/
theorem add_sub_roundtrip :
    ∀ (d : EWSDateTime) (delta : Int),
      (d.add delta).sub delta = d ∧
      instantOf ((d.add delta).sub delta) = instantOf d ∧
      ((d.add delta).sub delta).tzinfo = d.tzinfo := by
  intro d delta
  have h : (d.add delta).sub delta = d := by
    cases d with
    | mk w tz =>
      simp [EWSDateTime.add, EWSDateTime.sub]
  exact ⟨h, by rw [h], by rw [h]⟩

/-- Claim C10: the conversion constructors reject arguments that are
already instances of the target type — `from_datetime` fails with
`ValueError` on an `EWSDateTime` argument and `from_date` fails with
`ValueError` on an `EWSDate` argument — while plain `datetime`/`date`
inputs with the same field values are accepted. -/
theorem conversion_constructors_reject_own_type :
    (∀ dt : EWSDateTime,
      ∃ m, EWSDateTime.from_datetime (.ews dt) = .error (.valueError m)) ∧
    (∀ d : EWSDate, ∃ m, EWSDate.from_date (.ews d) = .error (.valueError m)) ∧
    (∀ f : CivilFields,
      EWSDateTime.from_datetime (.plain f none) = .ok ⟨civilToMicros f, none⟩) ∧
    ∀ y m d : Nat, EWSDate.from_date (.plain y m d) = .ok ⟨y, m, d⟩ := by
  exact ⟨fun dt => ⟨_, rfl⟩, fun d => ⟨_, rfl⟩, fun f => rfl, fun y m d => rfl⟩

end Exchangelib
